import Mathlib

/-!
Shallow embedding of the product-details screen and the bottom-sheet widget
of the medusa-pos-starter repository.

Part 1: variant resolution and price lookup, from the ProductDetails
component.  The selected-options mapping is a `Record<string, string>`;
`Object.entries` turns it into a list of key/value pairs, so we embed it as
`List (String × String)`.  A variant's `options` and `prices` fields may be
`undefined` (the code guards them with optional chaining), so they are
embedded as `Option (List _)`.
-/

/-- One option assignment of a variant: `{ option_id, value }`. -/
structure VariantOption where
  option_id : String
  value : String
deriving DecidableEq, Repr

/-- One per-currency price entry of a variant: `{ currency_code, amount }`. -/
structure Price where
  currency_code : String
  amount : ℚ
deriving DecidableEq, Repr

/-- A product variant as used by the screen: id, option assignments, prices.
`options` and `prices` are `Option`al because the code accesses them with
`variant.options?.…` and `variant.prices?.…`. -/
structure Variant where
  id : String
  options : Option (List VariantOption)
  prices : Option (List Price)
deriving DecidableEq, Repr

/-- `variant.options?.some((option) => option.option_id === optionId && option.value === value)`:
`undefined` options short-circuit to a non-match. -/
def optionMatches (v : Variant) (optionId optionValue : String) : Bool :=
  match v.options with
  | some opts => opts.any (fun o => o.option_id == optionId && o.value == optionValue)
  | none => false

/-- `Object.entries(selectedOptions).every(([optionId, value]) => variant.options?.some(…))`. -/
def variantMatches (sel : List (String × String)) (v : Variant) : Bool :=
  sel.all (fun p => optionMatches v p.1 p.2)

/-- `productQuery.data?.product.variants?.find((variant) => …)` from
ProductDetails: the first variant every selected pair of which appears in
the variant's option list. -/
def selectedVariant (variants : List Variant) (sel : List (String × String)) :
    Option Variant :=
  variants.find? (variantMatches sel)

/-- `settings.data?.region?.currency_code || 'eur'`: JavaScript `||` falls
back on every falsy value, so both a missing code and the empty string
yield the `'eur'` default. -/
def activeCurrencyCode (settingsCode : Option String) : String :=
  match settingsCode with
  | some c => if c = "" then "eur" else c
  | none => "eur"

/-- `selectedVariant?.prices?.find((price) => price.currency_code === currencyCode)`,
with the currency code derived from the settings.  The JSX renders the
price block only under `price && …`, so `none` means no price is shown. -/
def displayedPrice (v : Variant) (settingsCode : Option String) : Option Price :=
  match v.prices with
  | some ps => ps.find? (fun p => p.currency_code == activeCurrencyCode settingsCode)
  | none => none

/-- `disabled={!selectedVariant}` on the add-to-cart button. -/
def addButtonDisabled (sv : Option Variant) : Bool :=
  sv.isNone

/-- One item of the add-to-draft-order mutation payload: `{ quantity, variant_id }`. -/
structure OrderItem where
  quantity : Nat
  variant_id : String
deriving DecidableEq, Repr

/-- The `items` list submitted by the button's `onPress`: the early return
`if (!selectedVariant) return;` means no payload without a resolved
variant; otherwise exactly one item is sent. -/
def addToOrderItems (sv : Option Variant) (quantity : Nat) :
    Option (List OrderItem) :=
  match sv with
  | none => none
  | some v => some [⟨quantity, v.id⟩]

/-- A sample variant used in concrete counterexamples and witnesses. -/
def vRed : Variant :=
  ⟨"variant-red", some [⟨"opt-color", "Red"⟩], some [⟨"eur", 50⟩]⟩

/-- A second sample variant. -/
def vBlue : Variant :=
  ⟨"variant-blue", some [⟨"opt-color", "Blue"⟩], some [⟨"eur", 60⟩]⟩

/- ---------------------------------------------------------------- -/
/- Theorems -/
/- ---------------------------------------------------------------- -/

/-- C1 counterexample: with a nonempty variant list and an empty
selected-options mapping, resolution returns the FIRST variant, not
absence — `Array.prototype.every` is vacuously true on the empty entry
list, so `find` accepts the first element. -/
theorem c1_empty_mapping_counterexample :
    selectedVariant [vRed, vBlue] [] = some vRed ∧
      ¬ selectedVariant [vRed, vBlue] [] = none := by
  constructor
  · rfl
  · intro h
    simp [selectedVariant, vRed, vBlue, variantMatches] at h

/-- C1 (amended): on an empty selected-options mapping, resolution returns
the head of the variant list (absence only when the list is empty); and
whenever the mapping contradicts every variant, resolution returns
absence. -/
theorem c1_empty_or_contradictory_mapping (variants : List Variant)
    (sel : List (String × String)) :
    (sel = [] → selectedVariant variants sel = variants.head?) ∧
      ((∀ v ∈ variants, variantMatches sel v = false) →
        selectedVariant variants sel = none) := by
  constructor
  · intro hsel
    subst hsel
    induction variants with
    | nil => rfl
    | cons v t ih =>
      simp [selectedVariant, variantMatches, List.find?]
  · intro hcontra
    apply List.find?_eq_none.mpr
    intro v hv
    simp [hcontra v hv]

/-- C1 amended-claim witness at concrete inputs. -/
theorem c1_empty_or_contradictory_mapping_witness :
    selectedVariant [vRed, vBlue] [] = some vRed ∧
      selectedVariant [vRed, vBlue] [("opt-color", "Green")] = none := by
  constructor
  · exact (c1_empty_or_contradictory_mapping [vRed, vBlue] []).1 rfl
  · exact (c1_empty_or_contradictory_mapping [vRed, vBlue]
      [("opt-color", "Green")]).2 (by decide)

/-- C2: resolution returns at most one variant (its result is an `Option`);
any returned variant belongs to the list and contains every selected
(option_id, value) pair in its option list; and when every variant misses
some selected pair, the result is absence (no error is raised: the
function is total). -/
theorem c2_superset_match (variants : List Variant)
    (sel : List (String × String)) :
    (∀ v, selectedVariant variants sel = some v →
        v ∈ variants ∧ ∀ p ∈ sel, optionMatches v p.1 p.2 = true) ∧
      ((∀ v ∈ variants, ∃ p ∈ sel, optionMatches v p.1 p.2 = false) →
        selectedVariant variants sel = none) := by
  constructor
  · intro v hv
    refine ⟨List.mem_of_find?_eq_some hv, ?_⟩
    have hmatch : variantMatches sel v = true := List.find?_some hv
    intro p hp
    have := (List.all_eq_true.mp hmatch) p hp
    simpa using this
  · intro hmiss
    apply List.find?_eq_none.mpr
    intro v hv
    obtain ⟨p, hp, hfalse⟩ := hmiss v hv
    simp only [variantMatches, Bool.not_eq_true, List.all_eq_true]
    intro hall
    have := hall p hp
    simp [hfalse] at this

/-- C2 witness at concrete inputs: the mapping {opt-color ↦ Blue} resolves
vBlue (a member containing the pair), and a value matching no variant
yields absence. -/
theorem c2_superset_match_witness :
    (vBlue ∈ [vRed, vBlue] ∧
        ∀ p ∈ [(("opt-color" : String), ("Blue" : String))],
          optionMatches vBlue p.1 p.2 = true) ∧
      selectedVariant [vRed, vBlue] [("opt-color", "Green")] = none := by
  constructor
  · exact (c2_superset_match [vRed, vBlue] [("opt-color", "Blue")]).1 vBlue
      (by decide)
  · exact (c2_superset_match [vRed, vBlue] [("opt-color", "Green")]).2
      (by decide)

/-- C6: with the active currency code (the settings code, or the fixed
default "eur" when unset), the displayed price is exactly the matching
price entry when the variant has one (stated with a uniqueness hypothesis,
since `find` returns the first match), and no price is rendered when no
entry's currency matches. -/
theorem c6_price_lookup (v : Variant) (settingsCode : Option String)
    (ps : List Price) (p : Price) (hps : v.prices = some ps) :
    (p ∈ ps → p.currency_code = activeCurrencyCode settingsCode →
        (∀ q ∈ ps, q.currency_code = activeCurrencyCode settingsCode → q = p) →
        displayedPrice v settingsCode = some p) ∧
      ((∀ q ∈ ps, q.currency_code ≠ activeCurrencyCode settingsCode) →
        displayedPrice v settingsCode = none) ∧
      activeCurrencyCode none = "eur" := by
  refine ⟨?_, ?_, rfl⟩
  · intro hmem hcode huniq
    unfold displayedPrice
    rw [hps]
    rcases hfind : ps.find? (fun q => q.currency_code == activeCurrencyCode settingsCode)
      with _ | q
    · exfalso
      have := List.find?_eq_none.mp hfind p hmem
      simp [hcode] at this
    · have hq : q.currency_code = activeCurrencyCode settingsCode := by
        have := List.find?_some hfind
        simpa using this
      have := huniq q (List.mem_of_find?_eq_some hfind) hq
      exact this ▸ hfind
  · intro hnone
    unfold displayedPrice
    rw [hps]
    apply List.find?_eq_none.mpr
    intro q hq
    simp [hnone q hq]

/-- C6 witness: the sample variant has a unique eur price entry, displayed
as-is under unset settings; under currency "usd" nothing is displayed. -/
theorem c6_price_lookup_witness :
    displayedPrice vRed none = some ⟨"eur", 50⟩ ∧
      displayedPrice vRed (some "usd") = none := by
  constructor
  · exact (c6_price_lookup vRed none [⟨"eur", 50⟩] ⟨"eur", 50⟩ rfl).1
      (by decide) (by decide) (by decide)
  · exact (c6_price_lookup vRed (some "usd") [⟨"eur", 50⟩] ⟨"eur", 50⟩ rfl).2.1
      (by decide)

/-- C7: with a resolved variant and quantity q, the mutation payload is
exactly one item {quantity := q, variant_id := the variant's id}; with no
resolved variant the button is disabled and `onPress` submits nothing. -/
theorem c7_add_to_order_payload (v : Variant) (q : Nat) :
    addToOrderItems (some v) q = some [⟨q, v.id⟩] ∧
      addToOrderItems none q = none ∧
      addButtonDisabled none = true ∧
      addButtonDisabled (some v) = false := by
  exact ⟨rfl, rfl, rfl, rfl⟩

/-!
Part 2: the BottomSheet component.  Animated shared values hold rationals;
gesture handlers are embedded as pure functions.  The handlers' observable
side effects (starting animations, setting shared values, the animation
completion handler, invoking `handleClose` / `onOverlayPress` / a caller
callback, navigating) are embedded as an ordered event trace: reanimated
runs a `withTiming` completion handler asynchronously after the
synchronous handler body, with `finished` telling whether the animation
ran to the end, so the completion events are appended after the
synchronous ones.
-/

/-- An animation started on a shared value, with the code's literal
parameters: `withTiming(target, {duration})`,
`withSpring(target, {stiffness, damping})`,
`withDecay({velocity, clamp: [lo, hi]})`. -/
inductive Anim where
  | timing (target duration : ℚ)
  | spring (target stiffness damping : ℚ)
  | decay (velocity clampLo clampHi : ℚ)
deriving DecidableEq, Repr

/-- One observable effect of the sheet's handlers. -/
inductive Event where
  | animTY (a : Anim)
  | animOp (a : Anim)
  | setTY (value : ℚ)
  | setOp (value : ℚ)
  | completion (finished : Bool)
  | close
  | overlayPress
  | callbackRun
  | navigate
deriving DecidableEq, Repr

/-- The shared animation values `translateY` and `overlayOpacity`. -/
structure SheetState where
  translateY : ℚ
  overlayOpacity : ℚ
deriving DecidableEq, Repr

/-- `panGesture.onChange`: only a positive (downward) `translationY` is
honored; it sets the offset to the translation and the overlay opacity to
`Math.max(0.3, 1 - translationY / 200)`. -/
def onChange (st : SheetState) (translationY : ℚ) : SheetState :=
  if translationY > 0 then
    ⟨translationY, max (3/10) (1 - translationY / 200)⟩
  else
    st

/-- The trace of one `onChange` call (the two shared-value writes, or
nothing when the translation is not downward). -/
def changeEvents (translationY : ℚ) : List Event :=
  if translationY > 0 then
    [Event.setTY translationY, Event.setOp (max (3/10) (1 - translationY / 200))]
  else
    []

/-- The trace of the whole active phase of a drag: the change events in
order. -/
def changesTrace (changes : List ℚ) : List Event :=
  (changes.map changeEvents).flatten

/-- `panGesture.onFinalize`: `shouldClose = translationY > 100 || velocityY > 500`;
a fast flick (`Math.abs(velocityY) > 500`) uses `withDecay` clamped to
[0, 300] for the offset, otherwise `withTiming(300)`; both close paths fade
the overlay with `withTiming(0, {duration: 250})` whose completion handler
calls `handleClose` only when `finished`; otherwise both values spring
back (`withSpring` with stiffness 100, damping 8). -/
def onFinalizeTrace (translationY velocityY : ℚ) (finished : Bool) : List Event :=
  if translationY > 100 ∨ velocityY > 500 then
    (if |velocityY| > 500 then
      [Event.animTY (Anim.decay velocityY 0 300)]
    else
      [Event.animTY (Anim.timing 300 250)]) ++
    ([Event.animOp (Anim.timing 0 250), Event.completion finished] ++
      (if finished then [Event.close] else []))
  else
    [Event.animTY (Anim.spring 0 100 8), Event.animOp (Anim.spring 1 100 8)]

/-- A full drag sequence: the active-phase events followed by the release
handling, with `finished` the completion flag later reported for the
overlay fade (irrelevant on the snap-back path, which installs no
completion handler). -/
def dragTrace (changes : List ℚ) (translationY velocityY : ℚ)
    (finished : Bool) : List Event :=
  changesTrace changes ++ onFinalizeTrace translationY velocityY finished

/-- The synchronous body of `animateOut`: start both exit animations
(`withTiming(300, {duration: 250})` and `withTiming(0, {duration: 250})`). -/
def animateOutStart : List Event :=
  [Event.animTY (Anim.timing 300 250), Event.animOp (Anim.timing 0 250)]

/-- The later completion of `animateOut`'s overlay animation: the handler
runs the caller's callback only `if (finished && callback)`. -/
def animateOutCompletion (hasCallback finished : Bool) : List Event :=
  Event.completion finished ::
    (if finished && hasCallback then [Event.callbackRun] else [])

/-- The whole `animateOut(callback?)` trace. -/
def animateOutTrace (hasCallback finished : Bool) : List Event :=
  animateOutStart ++ animateOutCompletion hasCallback finished

/-- The add-to-order `onSuccess` handler: `animateOut()` is called WITHOUT
a callback and `router.dismissTo('/(tabs)/cart')` runs synchronously right
after it, so navigation precedes the asynchronous completion signal. -/
def onSuccessTrace (finished : Bool) : List Event :=
  animateOutStart ++ [Event.navigate] ++ animateOutCompletion false finished

/-- `overlayTapGesture.onEnd`: nothing unless `dismissOnOverlayPress`; a
supplied `onOverlayPress` handler is invoked instead of any animation
(early `return`); otherwise the timed exit runs and the completion handler
calls `handleClose` only when `finished`. -/
def overlayTapTrace (dismissOnOverlayPress hasOverlayHandler finished : Bool) :
    List Event :=
  if dismissOnOverlayPress then
    if hasOverlayHandler then
      [Event.overlayPress]
    else
      [Event.animTY (Anim.timing 300 250), Event.animOp (Anim.timing 0 250),
        Event.completion finished] ++
        (if finished then [Event.close] else [])
  else
    []

/-- No change event ever invokes the close callback. -/
theorem close_not_mem_changesTrace (changes : List ℚ) :
    Event.close ∉ changesTrace changes := by
  intro hmem
  simp only [changesTrace, List.mem_flatten, List.mem_map] at hmem
  obtain ⟨l, ⟨d, _, hl⟩, hcl⟩ := hmem
  subst hl
  unfold changeEvents at hcl
  split at hcl <;> simp at hcl

/-- C8: while dragging, a change event with downward translation d > 0
sets the offset to d and the overlay opacity to the floored proportional
fade max(0.3, 1 - d/200); a change event with d ≤ 0 leaves both shared
values unchanged. -/
theorem c8_drag_tracking (st : SheetState) (d : ℚ) :
    (0 < d → onChange st d = ⟨d, max (3/10) (1 - d / 200)⟩) ∧
      (d ≤ 0 → onChange st d = st) := by
  constructor
  · intro h
    unfold onChange
    rw [if_pos h]
  · intro h
    unfold onChange
    rw [if_neg (not_lt.mpr h)]

/-- C8 witness: a 50-unit downward drag sets offset 50 and opacity 0.75;
an upward drag changes nothing. -/
theorem c8_drag_tracking_witness :
    onChange ⟨0, 1⟩ 50 = ⟨50, max (3/10) (1 - 50 / 200)⟩ ∧
      onChange ⟨0, 1⟩ (-20) = ⟨0, 1⟩ := by
  constructor
  · exact (c8_drag_tracking ⟨0, 1⟩ 50).1 (by norm_num)
  · exact (c8_drag_tracking ⟨0, 1⟩ (-20)).2 (by norm_num)

/-- C4: for a drag sequence whose downward translations (changes and
release) all stay at or below the 100-unit distance threshold and whose
release speed |velocityY| stays at or below the 500 speed threshold, the
release springs both values back (offset to 0, overlay opacity to 1) and
the close callback is never invoked anywhere in the trace. -/
theorem c4_snap_back (changes : List ℚ) (translationY velocityY : ℚ)
    (finished : Bool)
    (hpeak : ∀ d ∈ translationY :: changes, d ≤ 100)
    (hspeed : |velocityY| ≤ 500) :
    dragTrace changes translationY velocityY finished =
        changesTrace changes ++
          [Event.animTY (Anim.spring 0 100 8), Event.animOp (Anim.spring 1 100 8)] ∧
      Event.close ∉ dragTrace changes translationY velocityY finished := by
  have htr : ¬ translationY > 100 :=
    not_lt.mpr (hpeak translationY (List.mem_cons_self _ _))
  have hvel : ¬ velocityY > 500 := not_lt.mpr ((abs_le.mp hspeed).2)
  have hfin : onFinalizeTrace translationY velocityY finished =
      [Event.animTY (Anim.spring 0 100 8), Event.animOp (Anim.spring 1 100 8)] := by
    unfold onFinalizeTrace
    rw [if_neg (by push_neg; exact ⟨not_lt.mp htr, not_lt.mp hvel⟩ : ¬ _)]
  refine ⟨by unfold dragTrace; rw [hfin], ?_⟩
  intro hmem
  unfold dragTrace at hmem
  rw [hfin] at hmem
  rcases List.mem_append.mp hmem with h | h
  · exact close_not_mem_changesTrace changes h
  · simp at h

/-- C4 witness: a drag to 80 units released at 80 units with velocity 200
snaps back and never closes. -/
theorem c4_snap_back_witness :
    dragTrace [30, 80] 80 200 true =
        changesTrace [30, 80] ++
          [Event.animTY (Anim.spring 0 100 8), Event.animOp (Anim.spring 1 100 8)] ∧
      Event.close ∉ dragTrace [30, 80] 80 200 true := by
  exact c4_snap_back [30, 80] 80 200 true (by norm_num) (by norm_num)

/-- C3: for a drag sequence whose release satisfies the closing condition
(translationY > 100 OR velocityY > 500), and whose exit animation's
completion handler reports finished, the close callback fires exactly once
in the whole trace, and it is the last event, immediately after the
completion signal (so only after the animation finished). -/
theorem c3_close_once_after_completion (changes : List ℚ)
    (translationY velocityY : ℚ)
    (h : translationY > 100 ∨ velocityY > 500) :
    (dragTrace changes translationY velocityY true).count Event.close = 1 ∧
      ∃ pre, dragTrace changes translationY velocityY true =
          pre ++ [Event.completion true, Event.close] ∧
        Event.close ∉ pre := by
  have hfin : onFinalizeTrace translationY velocityY true =
      (if |velocityY| > 500 then [Event.animTY (Anim.decay velocityY 0 300)]
        else [Event.animTY (Anim.timing 300 250)]) ++
        [Event.animOp (Anim.timing 0 250), Event.completion true, Event.close] := by
    unfold onFinalizeTrace
    rw [if_pos h]
    split <;> rfl
  have hclose_head : Event.close ∉
      (if |velocityY| > 500 then [Event.animTY (Anim.decay velocityY 0 300)]
        else [Event.animTY (Anim.timing 300 250)]) ++
        [Event.animOp (Anim.timing 0 250)] := by
    split <;> simp
  refine ⟨?_, changesTrace changes ++
      ((if |velocityY| > 500 then [Event.animTY (Anim.decay velocityY 0 300)]
        else [Event.animTY (Anim.timing 300 250)]) ++
        [Event.animOp (Anim.timing 0 250)]), ?_, ?_⟩
  · unfold dragTrace
    rw [hfin, List.count_append]
    have h0 : (changesTrace changes).count Event.close = 0 :=
      List.count_eq_zero.mpr (close_not_mem_changesTrace changes)
    rw [h0, List.count_append]
    have h1 : ((if |velocityY| > 500 then [Event.animTY (Anim.decay velocityY 0 300)]
        else [Event.animTY (Anim.timing 300 250)]) : List Event).count Event.close = 0 := by
      split <;> rfl
    rw [h1]
    rfl
  · unfold dragTrace
    rw [hfin]
    simp [List.append_assoc]
  · intro hmem
    rcases List.mem_append.mp hmem with hmem | hmem
    · exact close_not_mem_changesTrace changes hmem
    · exact hclose_head hmem

/-- C3 witness: releasing at 150 units with a slow velocity closes once,
after the completion signal. -/
theorem c3_close_once_after_completion_witness :
    (dragTrace [50, 150] 150 0 true).count Event.close = 1 := by
  exact (c3_close_once_after_completion [50, 150] 150 0 (Or.inl (by norm_num))).1

/-- C9: `animateOut` runs its optional caller callback at most once, and
exactly when a callback was supplied AND the completion handler reports
finished; in that case the callback is the last event, after the
completion signal.  An interrupted animation or an absent callback runs
nothing. -/
theorem c9_animate_out_callback (hasCallback finished : Bool) :
    ((animateOutTrace hasCallback finished).count Event.callbackRun =
        if finished && hasCallback then 1 else 0) ∧
      (finished = true → hasCallback = true →
        animateOutTrace hasCallback finished =
          [Event.animTY (Anim.timing 300 250), Event.animOp (Anim.timing 0 250),
            Event.completion true, Event.callbackRun]) ∧
      (finished = false → Event.callbackRun ∉ animateOutTrace hasCallback finished) ∧
      (hasCallback = false → Event.callbackRun ∉ animateOutTrace hasCallback finished) := by
  cases hasCallback <;> cases finished <;>
    refine ⟨by rfl, by intro h1 h2; first | rfl | simp at h1 h2, ?_, ?_⟩ <;>
    intro h <;> simp_all [animateOutTrace, animateOutStart, animateOutCompletion]

/-- C9 witness: with a callback supplied and the animation finished, the
trace ends with the completion signal then the callback. -/
theorem c9_animate_out_callback_witness :
    animateOutTrace true true =
      [Event.animTY (Anim.timing 300 250), Event.animOp (Anim.timing 0 250),
        Event.completion true, Event.callbackRun] := by
  exact (c9_animate_out_callback true true).2.1 rfl rfl

/-- C10: on an overlay tap, nothing happens when dismissOnOverlayPress is
false; when it is true and a custom onOverlayPress handler exists, only
that handler runs (no animation event, no close); otherwise the timed exit
animation runs and `handleClose` fires (once) exactly when the completion
handler reports finished, after the completion signal. -/
theorem c10_overlay_tap (dismiss hasHandler finished : Bool) :
    (dismiss = false → overlayTapTrace dismiss hasHandler finished = []) ∧
      (dismiss = true → hasHandler = true →
        overlayTapTrace dismiss hasHandler finished = [Event.overlayPress] ∧
          Event.close ∉ overlayTapTrace dismiss hasHandler finished ∧
          (∀ a, Event.animTY a ∉ overlayTapTrace dismiss hasHandler finished)) ∧
      ((overlayTapTrace dismiss hasHandler finished).count Event.close =
        if dismiss && (!hasHandler) && finished then 1 else 0) ∧
      (dismiss = true → hasHandler = false →
        overlayTapTrace dismiss hasHandler finished =
          [Event.animTY (Anim.timing 300 250), Event.animOp (Anim.timing 0 250),
            Event.completion finished] ++
            (if finished then [Event.close] else [])) := by
  cases dismiss <;> cases hasHandler <;> cases finished <;>
    refine ⟨by intro h; first | rfl | simp at h, ?_, by rfl, by intro h1 h2; first | rfl | simp at h1 h2⟩ <;>
    intro h1 h2 <;> simp_all [overlayTapTrace]

/-- C10 witness: with dismissal enabled, no custom handler, and a finished
animation, the trace is the timed exit followed by the completion signal
and the close callback. -/
theorem c10_overlay_tap_witness :
    overlayTapTrace true false true =
      [Event.animTY (Anim.timing 300 250), Event.animOp (Anim.timing 0 250),
        Event.completion true] ++ (if true then [Event.close] else []) := by
  exact (c10_overlay_tap true false true).2.2.2 rfl rfl

/-- C5 counterexample: in the success handler's trace, navigation is the
third event, BEFORE any completion signal of the exit animation —
`animateOut()` is called without a callback and `router.dismissTo` runs
synchronously right after it, so the navigation does not wait for the
animation to complete. -/
theorem c5_navigate_before_completion_counterexample :
    (onSuccessTrace true).take 3 =
        [Event.animTY (Anim.timing 300 250), Event.animOp (Anim.timing 0 250),
          Event.navigate] ∧
      Event.completion true ∉ (onSuccessTrace true).take 3 ∧
      (onSuccessTrace true).count Event.callbackRun = 0 := by
  refine ⟨rfl, by decide, rfl⟩

/-- C5 (amended): on a successful submission the screen starts the sheet's
exit animation and then navigates away immediately — exactly one navigate
event, placed right after the two animation starts and before the
asynchronous completion signal; since no callback is passed to
`animateOut`, no completion-triggered callback ever runs, whatever the
completion flag. -/
theorem c5_success_navigates_immediately (finished : Bool) :
    onSuccessTrace finished =
        animateOutStart ++
          (Event.navigate :: animateOutCompletion false finished) ∧
      (onSuccessTrace finished).count Event.navigate = 1 ∧
      (onSuccessTrace finished).take 3 =
        [Event.animTY (Anim.timing 300 250), Event.animOp (Anim.timing 0 250),
          Event.navigate] ∧
      Event.callbackRun ∉ onSuccessTrace finished := by
  cases finished <;> exact ⟨rfl, rfl, rfl, by decide⟩
